import Mathlib

/-
Verification development for the chat backend in chatbot_app.py.

The embedding is shallow: each helper of the backend is translated to a
Lean function over explicit inputs.  External services (the generative
model, the spreadsheet client, HTTP responses, the file system) are
modelled as environment records supplied to the functions, carrying the
outcome each external call would produce; a raised exception is modelled
as an Except.error value, and a caught exception as the handler branch
of the translated control flow.  Strings are modelled as sequences of
code points, matching the character-based slicing of the source.
-/

namespace ChatbotApp

/-- One conversation-history entry as supplied by the caller in the
request body: a role string and a text string. -/
structure Msg where
  role : String
  text : String

/-- One line of the rendered history, from the comprehension
f-string of generate_stream: the prefix is User when the role equals
user and Assistant for every other role. -/
def historyLine (m : Msg) : String :=
  (if m.role = "user" then "User" else "Assistant") ++ ": " ++ m.text

/-- history_text from generate_stream: newline-join of the rendered
lines, in the original order of the supplied history list. -/
def history_text (h : List Msg) : String :=
  String.intercalate "\n" (h.map historyLine)

/-- Model of the slice s[a:b] of the source language on strings:
the code points with indices a up to b, exclusive. -/
def pySlice (s : String) (a b : Nat) : String :=
  String.mk ((s.data.take b).drop a)

/-- safe_knowledge_text from generate_stream: the slice
KNOWLEDGE_BASE_TEXT[:20000]. -/
def safe_knowledge_text (kb : String) : String :=
  pySlice kb 0 20000

/-- The prompt f-string of generate_stream.  The fixed persona text is
out of scope and is abstracted as the four opaque template segments
t1..t4 surrounding the three interpolated values, in source order:
history, truncated corpus, new user question. -/
def assembled_prompt (t1 t2 t3 t4 historyText kb userQuestion : String) : String :=
  t1 ++ historyText ++ t2 ++ safe_knowledge_text kb ++ t3 ++ userQuestion ++ t4

/-- One event of the generation stream consumed by generate_stream:
either a chunk whose text attribute is the given string, or an
exception raised by the generation call or during iteration. -/
inductive StreamEvent where
  | chunk (text : String)
  | err

/-- True exactly on the exception event. -/
def StreamEvent.isErr : StreamEvent → Bool
  | .chunk _ => false
  | .err => true

/-- The literal yielded by the except branch of generate_stream. -/
def streamFallbackMessage : String :=
  "I\x27m sorry, an error occurred while I was thinking. Please try again."

/-- Observable outcome of running the generate_stream generator to
completion: the list of yielded fragments, and the argument passed to
log_conversation_summary when it was invoked (none when it was not). -/
structure StreamResult where
  yielded : List String
  logged : Option String

/-- The body of generate_stream, as a function of the rendered history
text, the accumulator full_response_text, and the stream events.  A
chunk with empty text is neither yielded nor accumulated (the source
guards with: if chunk.text).  On exhaustion the summary logger is
invoked with history_text plus a newline plus Assistant: plus the
accumulated reply.  On an exception the fallback literal is yielded and
the logger is not invoked. -/
def generate_stream (historyText acc : String) : List StreamEvent → StreamResult
  | [] => { yielded := [], logged := some (historyText ++ "\nAssistant: " ++ acc) }
  | StreamEvent.chunk t :: rest =>
      if t ≠ "" then
        let r := generate_stream historyText (acc ++ t) rest
        { yielded := t :: r.yielded, logged := r.logged }
      else generate_stream historyText acc rest
  | StreamEvent.err :: _ =>
      { yielded := [streamFallbackMessage], logged := none }

/-- Concatenation of the chunk texts of a list of stream events. -/
def chunkConcat : List StreamEvent → String
  | [] => ""
  | StreamEvent.chunk t :: rest => t ++ chunkConcat rest
  | StreamEvent.err :: rest => chunkConcat rest

/-- A value of the JSON data model, as returned by the standard json
parser of the source language: null, string, integer, boolean, object
(listed key-value fields) or array. -/
inductive Json where
  | null
  | str (s : String)
  | num (n : Int)
  | bool (b : Bool)
  | obj (fields : List (String × Json))
  | arr (elems : List Json)

/-- Index of the first occurrence of a character in a list, if any. -/
def findIdxFrom (c : Char) : List Char → Option Nat
  | [] => none
  | x :: xs => if x = c then some 0 else (findIdxFrom c xs).map (· + 1)

/-- Model of s.find(c) of the source language: index of the first
occurrence of the character, or -1 when absent. -/
def pyFind (s : String) (c : Char) : Int :=
  match findIdxFrom c s.data with
  | some i => Int.ofNat i
  | none => -1

/-- Model of s.rfind(c) of the source language: index of the last
occurrence of the character, or -1 when absent. -/
def pyRfind (s : String) (c : Char) : Int :=
  match findIdxFrom c s.data.reverse with
  | some i => (s.data.length : Int) - 1 - i
  | none => -1

/-- Environment of log_conversation_summary: the outcomes that the
external calls inside it would produce.  genResult is the outcome of
the model.generate_content summarization call (error models a raised
exception); loads is the standard json parser applied to the extracted
substring (none models a raised decode error); sheetOk is whether
opening the spreadsheet and appending the row succeed; timestamp is the
formatted current time. -/
structure LogEnv where
  gsheetConfigured : Bool
  genResult : Except Unit String
  loads : String → Option Json
  sheetOk : Bool
  timestamp : String

/-- log_conversation_summary.  Returns the row appended to the sheet,
or none when no row was appended (client unconfigured, or an exception
was raised inside the try block and caught by its except handler).
Field lookup models dict.get(key, default): a key that is present with
a null value yields null, an absent key yields the N/A default; calling
get on a non-object parse result raises and is caught. -/
def log_conversation_summary (env : LogEnv) (history : String) : Option (List Json) :=
  if env.gsheetConfigured = false then none
  else
    match env.genResult with
    | Except.error _ => none
    | Except.ok rawText =>
        let jsonStartIndex := pyFind rawText '\x7b'
        let jsonEndIndex := pyRfind rawText '\x7d' + 1
        let leadData? : Option Json :=
          if jsonStartIndex ≠ -1 ∧ jsonEndIndex ≠ -1 then
            env.loads (pySlice rawText jsonStartIndex.toNat jsonEndIndex.toNat)
          else
            some (Json.obj [("summary", Json.str "Could not summarize conversation."),
                            ("contact", Json.str "N/A"),
                            ("details", Json.str "N/A")])
        match leadData? with
        | none => none
        | some leadData =>
            if env.sheetOk = false then none
            else
              match leadData with
              | Json.obj fields =>
                  some [Json.str env.timestamp,
                        (fields.lookup "summary").getD (Json.str "N/A"),
                        (fields.lookup "contact").getD (Json.str "N/A"),
                        (fields.lookup "details").getD (Json.str "N/A")]
              | _ => none

/-- Model of s.lower() of the source language (ASCII case folding). -/
def pyLower (s : String) : String :=
  String.mk (s.data.map Char.toLower)

/-- Whitespace characters removed by the strip() model. -/
def isSpaceChar (c : Char) : Bool :=
  c = ' ' || c = '\t' || c = '\n' || c = '\r'

/-- Remove leading whitespace characters from a list. -/
def trimLeftList : List Char → List Char
  | [] => []
  | c :: cs => if isSpaceChar c then trimLeftList cs else c :: cs

/-- Model of s.strip() of the source language: remove leading and
trailing whitespace. -/
def pyStrip (s : String) : String :=
  String.mk ((trimLeftList (trimLeftList s.data.reverse).reverse))

/-- Whether the first list is an initial segment of the second. -/
def isPrefixList : List Char → List Char → Bool
  | [], _ => true
  | _ :: _, [] => false
  | a :: as, b :: bs => a == b && isPrefixList as bs

/-- Whether the first list occurs contiguously inside the second. -/
def containsList (needle : List Char) : List Char → Bool
  | [] => isPrefixList needle []
  | b :: bs => isPrefixList needle (b :: bs) || containsList needle bs

/-- Model of the containment test: needle in hay, on strings. -/
def pyIn (needle hay : String) : Bool :=
  containsList needle.data hay.data

/-- Model of s.endswith(suffix) of the source language. -/
def pyEndsWith (s suff : String) : Bool :=
  isPrefixList suff.data.reverse s.data.reverse

/-- Split a character list on a non-empty separator, leftmost and
non-overlapping, as str.split(sep) of the source language.  The first
argument is fuel bounding the recursion; the input length is always
enough fuel, making the fuel-exhausted branch unreachable. -/
def splitOnFuel (sep : List Char) : Nat → List Char → List Char → List (List Char)
  | _, [], cur => [cur.reverse]
  | 0, l, cur => [cur.reverse ++ l]
  | fuel + 1, c :: rest, cur =>
      if sep ≠ [] ∧ isPrefixList sep (c :: rest) then
        cur.reverse :: splitOnFuel sep fuel ((c :: rest).drop sep.length) []
      else
        splitOnFuel sep fuel rest (c :: cur)

/-- Model of s.split(sep) of the source language, for a non-empty
separator; splitting on a newline also models iterating the lines of a
file. -/
def pySplit (s sep : String) : List String :=
  (splitOnFuel sep.data s.data.length s.data []).map String.mk

/-- An HTTP response as seen by read_content_from_url after
raise_for_status passed: the declared content-type header, the result
of the pdf text extraction of the body (error models the pdf library
raising on a malformed body), and the page text produced by the html
parser after dropping script, style, nav, footer and header elements. -/
structure HttpResponse where
  contentTypeHeader : Option String
  pdfExtract : Except Unit String
  htmlText : String

/-- Outcome of requests.get plus raise_for_status for one URL:
requestError models any RequestException (timeout, connection failure,
non-2xx status); ok carries the response. -/
inductive FetchOutcome where
  | requestError
  | ok (r : HttpResponse)

/-- The reflow of extracted html text in read_content_from_url: split
into lines, strip each, split each on two spaces, strip each phrase,
keep the non-empty chunks, join with newlines. -/
def reflowHtmlText (text : String) : String :=
  let lines := (pySplit text "\n").map pyStrip
  let chunks := lines.flatMap (fun line => (pySplit line "  ").map pyStrip)
  String.intercalate "\n" (chunks.filter (fun c => c ≠ ""))

/-- read_content_from_url.  Only RequestException is caught (yielding
the empty string); the pdf extraction runs inside the try block but its
exceptions are not of that class, so an extraction error propagates as
Except.error.  Unrecognized content types return the empty string. -/
def read_content_from_url (outcome : FetchOutcome) : Except Unit String :=
  match outcome with
  | FetchOutcome.requestError => Except.ok ""
  | FetchOutcome.ok r =>
      let contentType := pyLower (r.contentTypeHeader.getD "")
      if pyIn "application/pdf" contentType then r.pdfExtract
      else if pyIn "text/html" contentType then Except.ok (reflowHtmlText r.htmlText)
      else Except.ok ""

/-- One entry of the knowledge directory: its file name and the result
of reading it (pdf extraction or utf-8 text read; error models a raised
exception, caught per file). -/
structure FileEntry where
  name : String
  extractResult : Except Unit String

/-- The per-file body of the directory loop in load_knowledge_base:
pdf and txt files are read, any exception is caught and the file
contributes nothing, other extensions are skipped, and an empty text is
not appended. -/
def processFile (e : FileEntry) : Option String :=
  let lower := pyLower e.name
  if pyEndsWith lower ".pdf" then
    match e.extractResult with
    | Except.ok t => if t ≠ "" then some t else none
    | Except.error _ => none
  else if pyEndsWith lower ".txt" then
    match e.extractResult with
    | Except.ok t => if t ≠ "" then some t else none
    | Except.error _ => none
  else none

/-- The URL loop of load_knowledge_base: fetch each URL in order,
append the non-empty contents.  An exception raised out of
read_content_from_url propagates (the enclosing handler catches only
the missing-config-file error). -/
def fetchUrls (urlFetch : String → FetchOutcome) : List String → Except Unit (List String)
  | [] => Except.ok []
  | u :: rest =>
      match read_content_from_url (urlFetch u) with
      | Except.error e => Except.error e
      | Except.ok c =>
          match fetchUrls urlFetch rest with
          | Except.error e => Except.error e
          | Except.ok cs => Except.ok (if c ≠ "" then c :: cs else cs)

/-- Environment of load_knowledge_base: the knowledge directory listing
(none models an absent directory), the content of the URL config file
(none models FileNotFoundError on open), and the per-URL fetch
outcome. -/
structure KBEnv where
  knowledgeDir : Option (List FileEntry)
  urlConfig : Option String
  urlFetch : String → FetchOutcome

/-- The process-wide state touched by load_knowledge_base: the globals
KNOWLEDGE_BASE_TEXT and knowledge_base_loaded. -/
structure KBState where
  knowledgeBaseText : String
  loaded : Bool

/-- load_knowledge_base.  Returns the new state and the number of
fetches performed (file reads plus URL requests), or Except.error when
a URL fetch raised past read_content_from_url, in which case the
globals are left unassigned.  The loaded flag becomes true exactly when
the separator-join of the collected texts is non-empty. -/
def load_knowledge_base (env : KBEnv) (s : KBState) : Except Unit (KBState × Nat) :=
  if s.loaded then Except.ok (s, 0)
  else
    let files := env.knowledgeDir.getD []
    let fileTexts := files.filterMap processFile
    let fileFetches := (files.filter (fun e =>
        pyEndsWith (pyLower e.name) ".pdf" || pyEndsWith (pyLower e.name) ".txt")).length
    match env.urlConfig with
    | none =>
        let kbText := String.intercalate "\n\n---\n\n" fileTexts
        Except.ok ({ knowledgeBaseText := kbText, loaded := kbText != "" }, fileFetches)
    | some cfg =>
        let urls := ((pySplit cfg "\n").map pyStrip).filter (fun l => l ≠ "")
        match fetchUrls env.urlFetch urls with
        | Except.error e => Except.error e
        | Except.ok urlTexts =>
            let kbText := String.intercalate "\n\n---\n\n" (fileTexts ++ urlTexts)
            Except.ok ({ knowledgeBaseText := kbText, loaded := kbText != "" },
                       fileFetches + urls.length)

/-- HTTP-level result of the chat route: an error JSON body with its
status code, or the streamed response. -/
inductive ChatResult where
  | jsonError (msg : String) (status : Nat)
  | streamResponse (r : StreamResult)

/-- The chat route handler.  It first ensures the knowledge base is
built (an exception raised by the build propagates as an unhandled
server fault), then checks MODEL_CONFIGURED (returning the 500 error),
then reads the message field (absent models data.get returning None;
the falsy test also covers the empty string) returning the 400 error,
and otherwise returns the streamed response.  The generation call on
the assembled prompt is abstracted by the supplied stream events. -/
def chat (env : KBEnv) (s : KBState) (modelConfigured : Bool)
    (events : List StreamEvent) (message : Option String) (history : List Msg) :
    Except Unit (KBState × ChatResult) :=
  let loadRes := if s.loaded then Except.ok (s, 0) else load_knowledge_base env s
  match loadRes with
  | Except.error e => Except.error e
  | Except.ok (s', _) =>
      if modelConfigured = false then
        Except.ok (s', ChatResult.jsonError "AI model not available." 500)
      else
        let userQuestion := (message.getD "")
        if userQuestion = "" then
          Except.ok (s', ChatResult.jsonError "No message provided." 400)
        else
          Except.ok (s', ChatResult.streamResponse
            (generate_stream (history_text history) "" events))

/-- Raw model output of the spec example for lead extraction: a JSON
object whose summary and contact are both null. -/
def c1Raw : String := "\x7b\"summary\": null, \"contact\": null\x7d"

/-- Environment for the all-null lead-extraction scenario: sheet client
configured, summarization call returns c1Raw, the json parser parses
exactly that text to the all-null object, sheet reachable. -/
def c1Env : LogEnv :=
  { gsheetConfigured := true
    genResult := Except.ok c1Raw
    loads := fun s =>
      if s = c1Raw then some (Json.obj [("summary", Json.null), ("contact", Json.null)])
      else none
    sheetOk := true
    timestamp := "2025-01-01 00:00:00" }

/-- Environment where the raw model output starts with a brace but
contains no closing brace, so the extracted substring is empty and the
json parser rejects it. -/
def c4Env : LogEnv :=
  { gsheetConfigured := true
    genResult := Except.ok "\x7boops"
    loads := fun _ => none
    sheetOk := true
    timestamp := "2025-01-01 00:00:00" }

/-- Environment where the raw model output contains no brace at all,
exercising the placeholder branch. -/
def c4PlainEnv : LogEnv :=
  { gsheetConfigured := true
    genResult := Except.ok "no json here"
    loads := fun _ => none
    sheetOk := true
    timestamp := "2025-01-01 00:00:00" }

/-- A response declared as pdf whose body the pdf library rejects. -/
def c3Resp : HttpResponse :=
  { contentTypeHeader := some "application/pdf"
    pdfExtract := Except.error ()
    htmlText := "" }

/-- Knowledge-base environment whose single configured URL serves the
malformed pdf response c3Resp. -/
def c3Env : KBEnv :=
  { knowledgeDir := none
    urlConfig := some "http://example.test/menu.pdf"
    urlFetch := fun _ => FetchOutcome.ok c3Resp }

/-- Knowledge-base environment with one local text file and no URL
config file. -/
def c8Env : KBEnv :=
  { knowledgeDir := some [{ name := "venue.txt", extractResult := Except.ok "The Sessions House" }]
    urlConfig := none
    urlFetch := fun _ => FetchOutcome.requestError }

/-- An inert knowledge-base environment: no directory, no URL config
file. -/
def emptyKBEnv : KBEnv :=
  { knowledgeDir := none
    urlConfig := none
    urlFetch := fun _ => FetchOutcome.requestError }

end ChatbotApp

namespace ChatbotApp

theorem strAppend_empty (s : String) : s ++ "" = s := by
  cases s with
  | mk d => exact congrArg String.mk (List.append_nil d)

theorem strEmpty_append (s : String) : "" ++ s = s := by
  cases s with
  | mk d => rfl

theorem strAppend_assoc (a b c : String) : a ++ b ++ c = a ++ (b ++ c) := by
  cases a with
  | mk la =>
    cases b with
    | mk lb =>
      cases c with
      | mk lc => exact congrArg String.mk (List.append_assoc la lb lc)

theorem findIdxFrom_lt_length {c : Char} :
    ∀ {l : List Char} {i : Nat}, findIdxFrom c l = some i → i < l.length := by
  intro l
  induction l with
  | nil => intro i h; simp [findIdxFrom] at h
  | cons x xs ih =>
      intro i h
      unfold findIdxFrom at h
      by_cases hx : x = c
      · simp [hx] at h
        simp
        omega
      · simp [hx] at h
        obtain ⟨j, hj, hji⟩ := h
        have := ih hj
        simp
        omega

theorem pyRfind_lower (s : String) (c : Char) : -1 ≤ pyRfind s c := by
  unfold pyRfind
  cases hf : findIdxFrom c s.data.reverse with
  | none => simp
  | some i =>
      have hi := findIdxFrom_lt_length hf
      rw [List.length_reverse] at hi
      show -1 ≤ (s.data.length : Int) - 1 - i
      omega

/-- Claim C6 (confirmed): for every knowledge corpus, the corpus
segment interpolated into the assembled prompt is the slice
KNOWLEDGE_BASE_TEXT[:20000], has length at most 20000 characters, and
is an initial segment of the corpus. -/
theorem prompt_corpus_segment_truncated (t1 t2 t3 t4 historyText kb userQuestion : String) :
    assembled_prompt t1 t2 t3 t4 historyText kb userQuestion =
      t1 ++ historyText ++ t2 ++ safe_knowledge_text kb ++ t3 ++ userQuestion ++ t4 ∧
    (safe_knowledge_text kb).length ≤ 20000 ∧
    ∃ rest, kb.data = (safe_knowledge_text kb).data ++ rest := by
  refine ⟨rfl, ?_, ⟨kb.data.drop 20000, ?_⟩⟩
  · show ((kb.data.take 20000).drop 0).length ≤ 20000
    rw [List.drop_zero, List.length_take]
    exact min_le_left _ _
  · show kb.data = (kb.data.take 20000).drop 0 ++ kb.data.drop 20000
    rw [List.drop_zero]
    exact (List.take_append_drop 20000 kb.data).symm

/-- Claim C9 (confirmed): the prompt renders history entries in their
original order, one line per entry; the line for entry i carries the
prefix User: exactly when that entry has role user, and Assistant: for
every other role value. -/
theorem history_rendering_order_and_roles (h : List Msg) (i : Nat) (hi : i < h.length) :
    history_text h = String.intercalate "\n" (h.map historyLine) ∧
    (h.map historyLine).length = h.length ∧
    (h.map historyLine).getD i "" =
      (if (h.getD i ⟨"", ""⟩).role = "user" then "User: " else "Assistant: ")
        ++ (h.getD i ⟨"", ""⟩).text := by
  refine ⟨rfl, List.length_map _ _, ?_⟩
  induction h generalizing i with
  | nil => simp at hi
  | cons m t ih =>
      cases i with
      | zero =>
          show historyLine m = _
          unfold historyLine
          by_cases hm : m.role = "user" <;> simp [hm]
      | succ n =>
          have hn : n < t.length := by simpa using hi
          have := ih n hn
          simpa using this

theorem generate_stream_logged (h : String) :
    ∀ (evs : List StreamEvent) (acc : String),
      (generate_stream h acc evs).logged =
        if evs.any StreamEvent.isErr then none
        else some (h ++ "\nAssistant: " ++ acc ++ chunkConcat evs) := by
  intro evs
  induction evs with
  | nil =>
      intro acc
      simp [generate_stream, chunkConcat, strAppend_empty]
  | cons e rest ih =>
      intro acc
      cases e with
      | chunk t =>
          by_cases ht : t = ""
          · subst ht
            simp [generate_stream, chunkConcat, StreamEvent.isErr, ih, strEmpty_append]
          · simp only [generate_stream, if_pos ht, List.any_cons, StreamEvent.isErr,
              Bool.false_or, chunkConcat]
            rw [ih (acc ++ t)]
            by_cases he : rest.any StreamEvent.isErr = true
            · simp [he]
            · simp only [Bool.not_eq_true] at he
              simp [he, strAppend_assoc]
      | err =>
          simp [generate_stream, StreamEvent.isErr]

/-- Claim C10 (confirmed): the lead logger is invoked exactly when the
stream is consumed to exhaustion with no exception, and it is then
called with the history text, a newline, Assistant: and the fully
accumulated reply; on any exception during generation or streaming no
summarization call is made, hence no spreadsheet row is attempted. -/
theorem lead_logger_invocation (historyText : String) (evs : List StreamEvent) :
    (generate_stream historyText "" evs).logged =
      if evs.any StreamEvent.isErr then none
      else some (historyText ++ "\nAssistant: " ++ chunkConcat evs) := by
  rw [generate_stream_logged historyText evs ""]
  simp only [strAppend_empty]

theorem stream_error_result (h : String) :
    ∀ (evs : List StreamEvent) (acc : String), evs.any StreamEvent.isErr = true →
      (∃ pre, (generate_stream h acc evs).yielded = pre ++ [streamFallbackMessage]) ∧
      (generate_stream h acc evs).logged = none := by
  intro evs
  induction evs with
  | nil => intro acc herr; simp at herr
  | cons e rest ih =>
      intro acc herr
      cases e with
      | chunk t =>
          have hrest : rest.any StreamEvent.isErr = true := by
            simpa [StreamEvent.isErr] using herr
          by_cases ht : t = ""
          · subst ht
            simpa [generate_stream] using ih acc hrest
          · obtain ⟨⟨pre, hpre⟩, hlog⟩ := ih (acc ++ t) hrest
            refine ⟨⟨t :: pre, ?_⟩, ?_⟩
            · simp [generate_stream, if_pos ht, hpre]
            · simp [generate_stream, if_pos ht, hlog]
      | err =>
          exact ⟨⟨[], rfl⟩, rfl⟩

/-- Counterexample to claim C2: on a generation error the handler
yields its fallback literal, which is not the literal stated by the
claim. -/
theorem stream_fallback_literal_differs :
    (generate_stream "" "" [StreamEvent.err]).yielded = [streamFallbackMessage] ∧
    streamFallbackMessage ≠
      "I\x27m sorry, I\x27m having trouble forming a response right now." :=
  ⟨rfl, by decide⟩

/-- Claim C2 as amended (corrected): whenever the generation call or
the streaming raises, the handler swallows the exception (the run is
total, nothing propagates to the caller), the last yielded fragment is
the literal fallback message of the source, namely I am sorry, an
error occurred while I was thinking. Please try again. (with
apostrophes), and the lead logger is not invoked. -/
theorem stream_error_yields_fallback (h acc : String) (evs : List StreamEvent)
    (herr : evs.any StreamEvent.isErr = true) :
    (∃ pre, (generate_stream h acc evs).yielded = pre ++ [streamFallbackMessage]) ∧
    (generate_stream h acc evs).logged = none :=
  stream_error_result h evs acc herr

/-- Witness for C2: a stream whose sole event is the raised
exception. -/
theorem stream_error_yields_fallback_witness :
    (∃ pre, (generate_stream "The Sessions House" "" [StreamEvent.err]).yielded =
      pre ++ [streamFallbackMessage]) ∧
    (generate_stream "The Sessions House" "" [StreamEvent.err]).logged = none :=
  stream_error_yields_fallback "The Sessions House" "" [StreamEvent.err] rfl

/-- Counterexample to claim C1: for the spec example lead data with
summary and contact both null (and details absent), a spreadsheet row
is appended anyway, carrying the null values and the N/A default for
the absent key; the claim says no row is appended. -/
theorem log_all_null_row_appended :
    c1Env.loads c1Raw = some (Json.obj [("summary", Json.null), ("contact", Json.null)]) ∧
    log_conversation_summary c1Env "User: hi" =
      some [Json.str "2025-01-01 00:00:00", Json.null, Json.null, Json.str "N/A"] :=
  ⟨rfl, rfl⟩

/-- Claim C1 as amended (corrected): whenever the sheet client is
configured, the summarization call succeeds, the first-brace-to-last-
brace substring parses to a JSON object and the sheet is reachable,
log_conversation_summary appends one row regardless of the field
values (null or empty included); a key absent from the object is
substituted by N/A, while a key present with a null value is passed
through as null. -/
theorem log_row_appended_regardless (env : LogEnv) (history raw : String)
    (fields : List (String × Json)) (i : Nat)
    (hconf : env.gsheetConfigured = true)
    (hgen : env.genResult = Except.ok raw)
    (hsheet : env.sheetOk = true)
    (hfind : pyFind raw '\x7b' = Int.ofNat i)
    (hparse : env.loads (pySlice raw i (pyRfind raw '\x7d' + 1).toNat) =
      some (Json.obj fields)) :
    log_conversation_summary env history =
      some [Json.str env.timestamp,
            (fields.lookup "summary").getD (Json.str "N/A"),
            (fields.lookup "contact").getD (Json.str "N/A"),
            (fields.lookup "details").getD (Json.str "N/A")] := by
  have hstart : ¬ (Int.ofNat i = (-1 : Int)) := by simp
  have hend : ¬ (pyRfind raw '\x7d' + 1 = (-1 : Int)) := by
    have := pyRfind_lower raw '\x7d'
    intro hc
    omega
  simp [log_conversation_summary, hconf, hgen, hsheet, hfind, hstart, hend, hparse]

/-- Witness for the amended C1 at the all-null environment. -/
theorem log_row_appended_regardless_witness :
    log_conversation_summary c1Env "User: hi" =
      some [Json.str c1Env.timestamp,
            (([("summary", Json.null), ("contact", Json.null)]).lookup "summary").getD
              (Json.str "N/A"),
            (([("summary", Json.null), ("contact", Json.null)]).lookup "contact").getD
              (Json.str "N/A"),
            (([("summary", Json.null), ("contact", Json.null)]).lookup "details").getD
              (Json.str "N/A")] :=
  log_row_appended_regardless c1Env "User: hi" c1Raw
    [("summary", Json.null), ("contact", Json.null)] 0 rfl rfl rfl rfl rfl

/-- Counterexample to claim C4: the raw output contains an opening
brace but no closing brace; the located substring is empty, the json
parser rejects it, and NO row is appended, although the claim says a
placeholder row is appended on every parse failure.  (The end-index
check of the source is vacuous: rfind plus one is never -1.) -/
theorem log_invalid_json_no_row :
    pyFind "\x7boops" '\x7b' = Int.ofNat 0 ∧
    c4Env.loads "" = none ∧
    log_conversation_summary c4Env "User: hi" = none :=
  ⟨rfl, rfl, rfl⟩

/-- Claim C4 as amended (corrected): the logger takes the substring
from the first opening brace to the last closing brace; when the raw
text contains no opening brace, a placeholder row is appended whose
summary is the literal Could not summarize conversation. and whose
contact and details are N/A; but when an opening brace is present and
the located substring is not valid JSON (including the case of a
missing closing brace, since the end-index check is vacuously true),
the parse exception is caught by the outer handler and no row is
appended. -/
theorem log_parse_failure_behavior (env : LogEnv) (history raw : String)
    (hconf : env.gsheetConfigured = true)
    (hgen : env.genResult = Except.ok raw)
    (hsheet : env.sheetOk = true) :
    (pyFind raw '\x7b' = -1 →
      log_conversation_summary env history =
        some [Json.str env.timestamp, Json.str "Could not summarize conversation.",
              Json.str "N/A", Json.str "N/A"]) ∧
    (∀ i : Nat, pyFind raw '\x7b' = Int.ofNat i →
      env.loads (pySlice raw i (pyRfind raw '\x7d' + 1).toNat) = none →
      log_conversation_summary env history = none) := by
  constructor
  · intro hnone
    simp [log_conversation_summary, hconf, hgen, hsheet, hnone]
    exact ⟨rfl, rfl⟩
  · intro i hfind hparse
    have hstart : ¬ (Int.ofNat i = (-1 : Int)) := by simp
    have hend : ¬ (pyRfind raw '\x7d' + 1 = (-1 : Int)) := by
      have := pyRfind_lower raw '\x7d'
      intro hc
      omega
    simp [log_conversation_summary, hconf, hgen, hsheet, hfind, hstart, hend, hparse]

/-- Witness for the amended C4: placeholder row on brace-free output,
no row on undecodable braced output. -/
theorem log_parse_failure_behavior_witness :
    log_conversation_summary c4PlainEnv "User: hi" =
      some [Json.str c4PlainEnv.timestamp, Json.str "Could not summarize conversation.",
            Json.str "N/A", Json.str "N/A"] :=
  (log_parse_failure_behavior c4PlainEnv "User: hi" "no json here" rfl rfl rfl).1 rfl

/-- Witness for C9 at a concrete two-entry history. -/
theorem history_rendering_order_and_roles_witness :
    history_text [⟨"user", "hi"⟩, ⟨"bot", "yo"⟩] =
      String.intercalate "\n" (([⟨"user", "hi"⟩, ⟨"bot", "yo"⟩] : List Msg).map historyLine) ∧
    (([⟨"user", "hi"⟩, ⟨"bot", "yo"⟩] : List Msg).map historyLine).length =
      ([⟨"user", "hi"⟩, ⟨"bot", "yo"⟩] : List Msg).length ∧
    (([⟨"user", "hi"⟩, ⟨"bot", "yo"⟩] : List Msg).map historyLine).getD 1 "" =
      (if (([⟨"user", "hi"⟩, ⟨"bot", "yo"⟩] : List Msg).getD 1 ⟨"", ""⟩).role = "user"
        then "User: " else "Assistant: ")
        ++ (([⟨"user", "hi"⟩, ⟨"bot", "yo"⟩] : List Msg).getD 1 ⟨"", ""⟩).text :=
  history_rendering_order_and_roles [⟨"user", "hi"⟩, ⟨"bot", "yo"⟩] 1 (by decide)

/-- Counterexample to claim C3: a URL whose response is declared as pdf
but whose body the pdf library rejects makes read_content_from_url
raise past its boundary, and that exception aborts the whole
knowledge-base build. -/
theorem fetch_pdf_error_raises :
    read_content_from_url (FetchOutcome.ok c3Resp) = Except.error () ∧
    load_knowledge_base c3Env ⟨"", false⟩ = Except.error () :=
  ⟨rfl, rfl⟩

/-- Claim C3 as amended (corrected): read_content_from_url returns
extracted text or the empty string for network errors (timeout,
non-2xx, DNS failure, all RequestException) and for unrecognized
content types, but it raises past its boundary exactly when the
declared content type is pdf and the pdf extraction of the body
raises, since only RequestException is caught; such an exception
aborts the whole build. -/
theorem fetch_raises_only_on_pdf_extract_error (o : FetchOutcome) :
    read_content_from_url o = Except.error () ↔
      ∃ r, o = FetchOutcome.ok r ∧
        pyIn "application/pdf" (pyLower (r.contentTypeHeader.getD "")) = true ∧
        r.pdfExtract = Except.error () := by
  cases o with
  | requestError =>
      simp [read_content_from_url]
  | ok r =>
      simp only [read_content_from_url]
      constructor
      · intro he
        by_cases hpdf : pyIn "application/pdf" (pyLower (r.contentTypeHeader.getD "")) = true
        · rw [if_pos hpdf] at he
          exact ⟨r, rfl, hpdf, he⟩
        · rw [if_neg hpdf] at he
          split at he <;> simp at he
      · rintro ⟨r', hr', hp, he⟩
        injection hr' with h
        subst h
        rw [if_pos hp]
        exact he

/-- Claim C7 (confirmed): when the loaded flag is already set,
load_knowledge_base performs zero fetches (no file reads, no URL
requests) and leaves the state unchanged, so a second sequential
invocation equals one. -/
theorem load_knowledge_base_idempotent (env : KBEnv) (s : KBState) (h : s.loaded = true) :
    load_knowledge_base env s = Except.ok (s, 0) := by
  simp [load_knowledge_base, h]

/-- Witness for C7 at a loaded state. -/
theorem load_knowledge_base_idempotent_witness :
    load_knowledge_base emptyKBEnv ⟨"kb", true⟩ = Except.ok (⟨"kb", true⟩, 0) :=
  load_knowledge_base_idempotent emptyKBEnv ⟨"kb", true⟩ rfl

/-- Claim C8 (confirmed): load_knowledge_base, the only operation
mutating the corpus state, preserves the invariant that a set loaded
flag implies a non-empty corpus text: the flag is set exactly when the
join of fetched texts is non-empty, and once the flag is true the call
returns immediately without mutating the state (a raised build
exception leaves the globals unassigned). -/
theorem knowledge_state_invariant (env : KBEnv) (s s' : KBState) (n : Nat)
    (hinv : s.loaded = true → s.knowledgeBaseText ≠ "")
    (hrun : load_knowledge_base env s = Except.ok (s', n)) :
    (s'.loaded = true → s'.knowledgeBaseText ≠ "") ∧ (s.loaded = true → s' = s) := by
  by_cases hl : s.loaded = true
  · unfold load_knowledge_base at hrun
    rw [if_pos hl] at hrun
    simp only [Except.ok.injEq, Prod.mk.injEq] at hrun
    obtain ⟨hs, -⟩ := hrun
    subst hs
    exact ⟨hinv, fun _ => rfl⟩
  · have hl' : s.loaded = false := by simpa using hl
    refine ⟨?_, fun hc => absurd hc hl⟩
    simp only [load_knowledge_base, hl', Bool.false_eq_true, if_false] at hrun
    split at hrun
    · simp only [Except.ok.injEq, Prod.mk.injEq] at hrun
      obtain ⟨hs, -⟩ := hrun
      subst hs
      intro hload
      simpa using hload
    · split at hrun
      · simp at hrun
      · simp only [Except.ok.injEq, Prod.mk.injEq] at hrun
        obtain ⟨hs, -⟩ := hrun
        subst hs
        intro hload
        simpa using hload

/-- Witness for C8: a fresh state and one local text file. -/
theorem knowledge_state_invariant_witness :
    ((⟨"The Sessions House", true⟩ : KBState).loaded = true →
      (⟨"The Sessions House", true⟩ : KBState).knowledgeBaseText ≠ "") ∧
    ((⟨"", false⟩ : KBState).loaded = true →
      (⟨"The Sessions House", true⟩ : KBState) = ⟨"", false⟩) :=
  knowledge_state_invariant c8Env ⟨"", false⟩ ⟨"The Sessions House", true⟩ 1
    (fun hc => absurd hc (by simp)) rfl

/-- Counterexample to claim C5: with the generation client not
configured, a request missing the message field receives the 500
server error, not the 400 client error: the configuration check runs
before message validation. -/
theorem chat_unconfigured_missing_message_500 :
    chat emptyKBEnv ⟨"kb", true⟩ false [] none [] =
      Except.ok (⟨"kb", true⟩, ChatResult.jsonError "AI model not available." 500) :=
  rfl

/-- Claim C5 as amended (corrected): a POST chat request whose body
lacks a non-empty message field receives the 400 client error provided
the generation client is configured; the configuration check precedes
message validation, so an unconfigured client yields the 500 server
error even when the message is missing. -/
theorem chat_missing_message_400_when_configured (env : KBEnv) (s : KBState)
    (events : List StreamEvent) (history : List Msg) (message : Option String)
    (hloaded : s.loaded = true) (hmsg : message.getD "" = "") :
    chat env s true events message history =
      Except.ok (s, ChatResult.jsonError "No message provided." 400) := by
  simp [chat, hloaded, hmsg]

/-- Witness for the amended C5 at a loaded state and absent message. -/
theorem chat_missing_message_400_when_configured_witness :
    chat emptyKBEnv ⟨"kb", true⟩ true [] none [] =
      Except.ok (⟨"kb", true⟩, ChatResult.jsonError "No message provided." 400) :=
  chat_missing_message_400_when_configured emptyKBEnv ⟨"kb", true⟩ [] [] none rfl rfl

end ChatbotApp
